import Mathlib

/-!
# MacroDeck — verification of the sequenced playback engine and editors

Shallow embedding of `src/macro_app.py` and `src/macro_editor.py`.

Modelling conventions:
* Python floats are modelled as rationals (`ℚ`); the numeric literals of the
  source (`0.6`, `0.55`, `0.35`, ...) are taken at their decimal value.
* Python sets of button names are modelled as `List String` with membership.
* Wall-clock time inside the expect poll loop is discretised into poll ticks of
  `pollInterval = 0.01 s`; the loop body is idealised as instantaneous, so the
  `while time.time() - t0 < tolerance` guard admits exactly
  `maxPolls = tolerance / pollInterval = 35` iterations.
* Threads are modelled by explicit environments: the sampling loop of
  `GamepadReader._loop` is a stream of snapshots indexed by poll tick, and the
  cooperative stop flag is a stream of booleans read at the points where the
  source reads `self._stop.is_set()`.
-/

namespace MacroDeck

/-- A gamepad snapshot as returned by `GamepadReader.snapshot`:
pressed button names and the left-stick axes `(lx, ly)`. -/
structure Snapshot where
  pressed : List String
  axes : ℚ × ℚ
deriving Repr, DecidableEq

/-- `GamepadReader.match_expect` from `src/macro_app.py` (lines 246-258):
verbatim membership in the pressed set, then the stick heuristics on
`(lx, ly)`, else `false`. -/
def matchExpect (expect : String) (buttons : List String) (axes : ℚ × ℚ) : Bool :=
  let lx := axes.1
  let ly := axes.2
  if expect ∈ buttons then true
  else if expect = "LS_UP" then decide (ly < -(6/10 : ℚ))
  else if expect = "LS_DOWN" then decide (ly > (6/10 : ℚ))
  else if expect = "LS_DIAG" then decide (|lx| > (55/100 : ℚ) ∧ |ly| > (55/100 : ℚ))
  else false

/-- `match_expect` applied to a whole snapshot. -/
def matchSnap (expect : String) (s : Snapshot) : Bool :=
  matchExpect expect s.pressed s.axes

/-! ## Gamepad reader lifecycle (`GamepadReader.__init__` / `start` / `snapshot`) -/

/-- The synchronously readable state of a `GamepadReader`:
`ready`, the latest sampled button set, and the latest sampled axes.
The background sampling thread is modelled separately, as the snapshot
streams consumed by the engine. -/
structure GamepadState where
  ready : Bool
  buttons : List String
  axes : ℚ × ℚ
deriving Repr, DecidableEq

/-- `GamepadReader.__init__`: not ready, empty pressed set, axes `(0, 0)`. -/
def gamepadInit : GamepadState :=
  { ready := false, buttons := [], axes := (0, 0) }

/-- `GamepadReader.start`, parameterised by `pygame.joystick.get_count()`:
with no joystick present it returns early with `ready = False` and never
starts the sampling thread, so the sampled state stays at its initial value;
with a joystick it marks the reader ready (the sampling thread itself is
modelled by the snapshot streams of the run environment). -/
def gamepadStart (joystickCount : Nat) (st : GamepadState) : GamepadState :=
  if joystickCount ≤ 0 then { st with ready := false }
  else { st with ready := true }

/-- `GamepadReader.snapshot`: a total function returning a copy of the
sampled buttons and axes (never an error). -/
def gamepadSnapshot (st : GamepadState) : List String × (ℚ × ℚ) :=
  (st.buttons, st.axes)

/-! ## Data model of guides (`Step`, `Guide`) -/

/-- `Step` dataclass of `src/macro_app.py`: `type` is one of
`note | wait | expect`; the other fields are optional. -/
structure Step where
  type : String
  text : Option String := none
  seconds : Option ℚ := none
  expect : Option String := none
deriving Repr, DecidableEq

/-- `Guide` dataclass of `src/macro_app.py`. The `steps` field defaults to
`None` in the source, hence `Option (List Step)`. -/
structure Guide where
  name : String
  type : String
  description : String
  trigger : Option String := none
  enabled : Bool := true
  steps : Option (List Step) := none
deriving Repr, DecidableEq

/-- Python truthiness of an `Optional[str]`: `None` and `""` are falsy. -/
def truthyStr : Option String → Bool
  | none => false
  | some s => !(s = "")

/-- Python `a or b` for an `Optional[str]` `a` and a string default `b`. -/
def pyOrStr (o : Option String) (d : String) : String :=
  match o with
  | none => d
  | some s => if s = "" then d else s

/-! ## The expect poll loop (`TrainerEngine._wait_for_expect`) -/

/-- `TrainerEngine.tolerance` (seconds): window for validating an expect. -/
def tolerance : ℚ := 35/100

/-- The fixed sleep between polls inside `_wait_for_expect` (seconds). -/
def pollInterval : ℚ := 1/100

/-- Number of poll iterations admitted by
`while time.time() - t0 < self.tolerance` when each iteration takes one
`pollInterval`: iterations start at elapsed `0.00, 0.01, ..., 0.34`. -/
def maxPolls : Nat := 35

/-- The environment seen by one expect poll loop: the stop flag and the
gamepad snapshot, both indexed by poll tick. -/
structure PollEnv where
  stop : Nat → Bool
  snap : Nat → Snapshot

/-- The body of the `_wait_for_expect` poll loop. `fuel` is the number of
iterations still admitted by the tolerance window, `i` the current poll
tick. Returns the match result together with the tick at which the loop
returned (`i + fuel` when the window elapsed). -/
def wfeGo (e : String) (env : PollEnv) : Nat → Nat → Bool × Nat
  | 0, i => (false, i)
  | fuel + 1, i =>
    if env.stop i then (false, i)
    else if matchSnap e (env.snap i) then (true, i)
    else wfeGo e env fuel (i + 1)

/-- `TrainerEngine._wait_for_expect`: a falsy expectation just sleeps through
the tolerance and reports `True`; otherwise the poll loop runs. -/
def waitForExpect (e : Option String) (env : PollEnv) : Bool :=
  if truthyStr e then (wfeGo (e.getD "") env maxPolls 0).1
  else true

/-! ## The blocking run loop (`TrainerEngine._run_blocking`) -/

/-- The environment seen by a whole run: the stop flag observed at the
boundary before step `i`, and the poll environment used if step `i` is an
expect step. -/
structure RunEnv where
  stopAt : Nat → Bool
  poll : Nat → PollEnv

/-- The step loop of `TrainerEngine._run_blocking`, returning the list of
status messages emitted from the top of the loop onwards (`i` is the index
of the next step, used to address the environment). -/
def runSteps (gname : String) (env : RunEnv) : List Step → Nat → List String
  | [], _ => ["🏁 Fin: " ++ gname]
  | s :: rest, i =>
    if env.stopAt i then ["⏹ Stop."]
    else if s.type = "note" then
      ("ℹ " ++ pyOrStr s.text "") :: runSteps gname env rest (i + 1)
    else if s.type = "wait" then
      runSteps gname env rest (i + 1)
    else if s.type = "expect" then
      ("👉 " ++ pyOrStr s.text "Acción") ::
        ((if truthyStr s.expect then
            [(if waitForExpect s.expect (env.poll i) then "✅ OK" else "⚠ No detectado")
              ++ " · " ++ s.expect.getD ""]
          else []) ++ runSteps gname env rest (i + 1))
    else
      runSteps gname env rest (i + 1)

/-- `TrainerEngine._run_blocking`: the full status trace of one run. -/
def runBlocking (g : Guide) (env : RunEnv) : List String :=
  ("▶ Iniciando: " ++ g.name) :: runSteps g.name env (g.steps.getD []) 0

/-- The poll environment produced when no device is present and no stop is
requested: `snapshot()` stays at the neutral initial state. -/
def neutralPollEnv : PollEnv :=
  { stop := fun _ => false
  , snap := fun _ => { pressed := gamepadInit.buttons, axes := gamepadInit.axes } }

/-- The run environment with no stop request and a permanently neutral
gamepad snapshot. -/
def neutralEnv : RunEnv :=
  { stopAt := fun _ => false, poll := fun _ => neutralPollEnv }

/-! ## Engine lifecycle (`TrainerEngine.run` / `App._run_current`) -/

/-- The run-lifecycle state of a `TrainerEngine`: the guide whose worker
thread is currently alive (if any) and the cooperative stop flag. -/
structure EngineState where
  active : Option Guide
  stopRequested : Bool
deriving Repr, DecidableEq

/-- `TrainerEngine.is_running`: whether a worker thread is alive. -/
def engineIsRunning (st : EngineState) : Bool :=
  st.active.isSome

/-- `TrainerEngine.run` (lines 318-323): if a run is active, return at once —
the state is untouched, no worker is spawned, nothing is queued and no
status message is emitted. Otherwise clear the stop flag and start the
worker for `g`. The second component is the list of status messages emitted
synchronously by the call itself. -/
def engineRun (st : EngineState) (g : Guide) : EngineState × List String :=
  if engineIsRunning st then (st, [])
  else ({ active := some g, stopRequested := false }, [])

/-- `App._run_current` (lines 574-581) at the point where a guide `g` is
selected: if the engine is running, report the conflict on the status label
and leave the engine untouched; otherwise delegate to `TrainerEngine.run`. -/
def appRunCurrent (st : EngineState) (g : Guide) : EngineState × List String :=
  if engineIsRunning st then (st, ["Ya hay una guía corriendo."])
  else engineRun st g

/-! ## JSON values and Python coercions -/

/-- A parsed JSON value (the result of `json.load` / the argument of
`json.dump`). Objects are association lists with distinct keys, as produced
by the JSON parser. Numbers are rationals. -/
inductive JVal where
  | null
  | bool (b : Bool)
  | num (q : ℚ)
  | str (s : String)
  | arr (items : List JVal)
  | obj (fields : List (String × JVal))
deriving Repr

/-- Python `int()` applied to a float: truncation toward zero. -/
def pyTruncRat (q : ℚ) : Int :=
  Int.tdiv q.num q.den

/-- Python `int(x)` on a JSON value: floats truncate toward zero, booleans
become 0/1, numeric strings parse (modelled by `String.toInt?` after
trimming), anything else raises (`none`). -/
def pyInt : JVal → Option Int
  | .num q => some (pyTruncRat q)
  | .bool b => some (if b then 1 else 0)
  | .str s => s.trim.toInt?
  | _ => none

/-- Python `bool(x)` truthiness of a JSON value. -/
def pyBool : JVal → Bool
  | .null => false
  | .bool b => b
  | .num q => !(q = 0)
  | .str s => !(s = "")
  | .arr xs => !xs.isEmpty
  | .obj fs => !fs.isEmpty

/-- Python `d.get(key, default)` on a parsed JSON object. -/
def objGet (fields : List (String × JVal)) (key : String) (dflt : JVal) : JVal :=
  match fields.lookup key with
  | some v => v
  | none => dflt

/-- Extract a string; any other value is outside the typed data model. -/
def asStr : JVal → Option String
  | .str s => some s
  | _ => none

/-- Extract an `Optional[str]` (`null` ↦ `None`). -/
def asOptStr : JVal → Option (Option String)
  | .null => some none
  | .str s => some (some s)
  | _ => none

/-- Extract an `Optional[float]` (`null` ↦ `None`). -/
def asOptNum : JVal → Option (Option ℚ)
  | .null => some none
  | .num q => some (some q)
  | _ => none

/-- Sequential `Option`-valued traversal, as a Python loop that raises at the
first failing element. -/
def traverseOpt (f : α → Option β) : List α → Option (List β)
  | [] => some []
  | a :: l => do
    let b ← f a
    let bs ← traverseOpt f l
    pure (b :: bs)

/-! ## Macro editor data model (`src/macro_editor.py`) -/

/-- Axis names of the editor input vector. -/
def AXES : List String := ["throttle", "steer", "pitch", "yaw", "roll"]

/-- Button names of the editor input vector. -/
def BUTTONS : List String := ["jump", "boost", "handbrake", "airRollL", "airRollR"]

/-- `_clamp_float(x, lo, hi)`. -/
def clampFloat (x lo hi : ℚ) : ℚ :=
  max lo (min hi x)

/-- `MacroFrame` dataclass: a duration in milliseconds and an untyped input
mapping (a Python dict, modelled as an association list in insertion
order). -/
structure MacroFrame where
  dt_ms : Int
  inputs : List (String × JVal)
deriving Repr

/-- `Macro` dataclass (the `frames` field as built by `load_macros`). -/
structure Macro where
  name : String
  type : String
  description : String
  trigger : Option String
  enabled : Bool
  frames : List MacroFrame
deriving Repr

/-- `new_empty_frame`: 80 ms, all axes `0.0`, all buttons `False`. -/
def new_empty_frame : MacroFrame :=
  { dt_ms := 80
  , inputs :=
      [ ("throttle", .num 0), ("steer", .num 0), ("pitch", .num 0)
      , ("yaw", .num 0), ("roll", .num 0)
      , ("jump", .bool false), ("boost", .bool false), ("handbrake", .bool false)
      , ("airRollL", .bool false), ("airRollR", .bool false) ] }

/-- One frame record inside `load_macros`: `int(fr.get("dt_ms", 80))` and
`dict(fr.get("inputs", {}))`. A `none` stands for a raised exception, which
`load_macros` turns into `[]` for the whole file. -/
def loadFrame : JVal → Option MacroFrame
  | .obj fields => do
    let dt ← pyInt (objGet fields "dt_ms" (.num 80))
    let inputs ← match objGet fields "inputs" (.obj []) with
      | .obj kvs => some kvs
      | _ => none
    pure { dt_ms := dt, inputs := inputs }
  | _ => none

/-- One macro record inside `load_macros`, restricted to payloads whose
name/type/description/trigger fields carry the annotated types (ill-typed
values would flow through Python unchecked but are outside the claims). -/
def loadMacroItem : JVal → Option Macro
  | .obj fields => do
    let frames ← match objGet fields "frames" (.arr []) with
      | .arr items => traverseOpt loadFrame items
      | _ => none
    let nm ← asStr (objGet fields "name" (.str "Macro"))
    let ty ← asStr (objGet fields "type" (.str "Single-Stage"))
    let desc ← asStr (objGet fields "description" (.str ""))
    let trig ← asOptStr (objGet fields "trigger" .null)
    pure { name := nm, type := ty, description := desc, trigger := trig
         , enabled := pyBool (objGet fields "enabled" (.bool true)), frames := frames }
  | _ => none

/-- `load_macros` on an already-parsed payload: any exception while decoding
(and a payload that is not a list) yields `[]`. -/
def loadMacros (payload : JVal) : List Macro :=
  match payload with
  | .arr items => (traverseOpt loadMacroItem items).getD []
  | _ => []

/-! ## The frame editor popup (`FrameEditor._apply`) -/

/-- The parse outcomes of the entry widgets when Aplicar is pressed:
`dtText` is the result of `float(dt_entry.get().strip())` (`none` =
`ValueError`), `axisText k` likewise per axis entry, `buttonVal k` the
switch state, and `extras` the result of `json.loads` on the extras box
(`none` = parse error). This quantifies over every possible content of the
entry fields and the extras box. -/
structure ApplyInput where
  dtText : Option ℚ
  axisText : String → Option ℚ
  buttonVal : String → Bool
  extras : Option JVal

/-- Python dict assignment `d[k] = v` on an association list: replace in
place if the key is present (keys are unique), else append. -/
def dictSet (fields : List (String × JVal)) (k : String) (v : JVal) : List (String × JVal) :=
  if (fields.lookup k).isSome then
    fields.map (fun kv => if kv.1 = k then (k, v) else kv)
  else fields ++ [(k, v)]

/-- The axis entries written by `_apply`: parse failures default to `0.0`,
then `_clamp_float`. -/
def axisEntries (inp : ApplyInput) : List (String × JVal) :=
  AXES.map (fun k => (k, JVal.num (clampFloat ((inp.axisText k).getD 0) (-1) 1)))

/-- The button entries written by `_apply`. -/
def buttonEntries (inp : ApplyInput) : List (String × JVal) :=
  BUTTONS.map (fun k => (k, JVal.bool (inp.buttonVal k)))

/-- `new_inputs` after the axis and button loops of `_apply`. -/
def baseInputs (inp : ApplyInput) : List (String × JVal) :=
  axisEntries inp ++ buttonEntries inp

/-- Whether the extras box parsed to a dict that binds key `k`. -/
def extrasBinds (inp : ApplyInput) (k : String) : Bool :=
  match inp.extras with
  | some (.obj kvs) => (kvs.lookup k).isSome
  | _ => false

/-- `new_inputs` after the extras loop of `_apply`: every binding of the
extras dict is written over the axis/button entries (a non-dict or
unparsable extras box is ignored). -/
def applyInputsMap (inp : ApplyInput) : List (String × JVal) :=
  match inp.extras with
  | some (.obj kvs) => kvs.foldl (fun acc kv => dictSet acc kv.1 kv.2) (baseInputs inp)
  | _ => baseInputs inp

/-- `FrameEditor._apply` (lines 216-250): duration parse with default 80
then `max(1, dt)`; clamped axes; buttons; then the extras overwrite. -/
def frameEditorApply (inp : ApplyInput) : MacroFrame :=
  { dt_ms := max 1 ((inp.dtText.map pyTruncRat).getD 80)
  , inputs := applyInputsMap inp }

/-- Lookup of a numeric input value in a frame mapping. -/
def numLookup (inputs : List (String × JVal)) (k : String) : Option ℚ :=
  match inputs.lookup k with
  | some (.num q) => some q
  | _ => none

/-! ## Guide persistence (`save_guides` / `load_guides`) -/

/-- JSON encoding of an `Optional[str]`. -/
def optStrJ : Option String → JVal
  | none => .null
  | some s => .str s

/-- JSON encoding of an `Optional[float]`. -/
def optNumJ : Option ℚ → JVal
  | none => .null
  | some q => .num q

/-- `dataclasses.asdict` on a `Step`. -/
def asdictStep (s : Step) : JVal :=
  .obj [ ("type", .str s.type), ("text", optStrJ s.text)
       , ("seconds", optNumJ s.seconds), ("expect", optStrJ s.expect) ]

/-- The payload record written by `save_guides` for one guide. -/
def encGuide (g : Guide) : JVal :=
  .obj [ ("name", .str g.name), ("type", .str g.type)
       , ("description", .str g.description), ("trigger", optStrJ g.trigger)
       , ("enabled", .bool g.enabled)
       , ("steps", .arr ((g.steps.getD []).map asdictStep)) ]

/-- `save_guides`: the JSON payload written to disk (the file itself is the
identity between `json.dump` and `json.load`). -/
def saveGuides (gs : List Guide) : JVal :=
  .arr (gs.map encGuide)

/-- The field names of the `Step` dataclass. -/
def stepKeys : List String := ["type", "text", "seconds", "expect"]

/-- `Step(**s)` on a parsed JSON record: unknown keys raise `TypeError`,
a missing `type` key raises, the remaining fields default to `None`.
Restricted to records whose values carry the annotated types. -/
def loadStep : JVal → Option Step
  | .obj fields =>
    if fields.all (fun kv => kv.1 ∈ stepKeys) then do
      let ty ← asStr (objGet fields "type" .null)
      let tx ← asOptStr (objGet fields "text" .null)
      let sec ← asOptNum (objGet fields "seconds" .null)
      let ex ← asOptStr (objGet fields "expect" .null)
      pure { type := ty, text := tx, seconds := sec, expect := ex }
    else none
  | _ => none

/-- One guide record inside `load_guides`. Note the steps read back are
always an actual list (`some _`), never `none`. -/
def loadGuideItem : JVal → Option Guide
  | .obj fields => do
    let steps ← match objGet fields "steps" (.arr []) with
      | .arr items => traverseOpt loadStep items
      | _ => none
    let nm ← asStr (objGet fields "name" (.str "Guide"))
    let ty ← asStr (objGet fields "type" (.str "Single-Stage"))
    let desc ← asStr (objGet fields "description" (.str ""))
    let trig ← asOptStr (objGet fields "trigger" .null)
    pure { name := nm, type := ty, description := desc, trigger := trig
         , enabled := pyBool (objGet fields "enabled" (.bool true)), steps := some steps }
  | _ => none

/-- `load_guides` on an already-parsed payload: any exception yields `[]`. -/
def loadGuides (payload : JVal) : List Guide :=
  match payload with
  | .arr items => (traverseOpt loadGuideItem items).getD []
  | _ => []

/-! ## Frame-streaming engine (spec §4.3; not present under `src/`) -/

/-- An event sent to the remote consumer. -/
inductive NetEvent where
  | start (name : String)
  | frame (dtMs : Int) (inputs : List (String × JVal))
  | endEv (name : String)
  | reset (inputs : List (String × JVal))
deriving Repr

/-- Whether an event is a `reset` event. -/
def isReset : NetEvent → Bool
  | .reset _ => true
  | _ => false

/-- The all-neutral input vector: every known axis `0.0`, every known
button `false` (axis and button names from `src/macro_editor.py`). -/
def neutralInputs : List (String × JVal) :=
  AXES.map (fun k => (k, JVal.num 0)) ++ BUTTONS.map (fun k => (k, JVal.bool false))

/-- Modelled from the spec: the per-frame loop of the frame-streaming engine
(§4.3), which is not part of `src/`. For each frame in order the stop signal
is checked at the frame boundary; if not stopped, a `frame` event carrying
the input vector and `durationMs` is transmitted and the worker sleeps. -/
def streamFrames : List MacroFrame → (Nat → Bool) → Nat → List NetEvent
  | [], _, _ => []
  | f :: rest, stopAt, i =>
    if stopAt i then []
    else .frame f.dt_ms f.inputs :: streamFrames rest stopAt (i + 1)

/-- Modelled from the spec: one run of the frame-streaming engine (§4.3),
which is not part of `src/`: a `start` event, the frame loop, then — on
natural completion and on cancellation alike — an `end` event followed by
the terminal `reset` event with the all-neutral input vector. -/
def streamRun (name : String) (frames : List MacroFrame) (stopAt : Nat → Bool) : List NetEvent :=
  .start name :: (streamFrames frames stopAt 0 ++ [.endEv name, .reset neutralInputs])

/-! ## Concrete fixtures used by witnesses and counterexamples -/

/-- A poll environment with button `A` held down and no stop request. -/
def cPollA : PollEnv :=
  { stop := fun _ => false, snap := fun _ => { pressed := ["A"], axes := (0, 0) } }

/-- A run environment around `cPollA`. -/
def cEnvA : RunEnv :=
  { stopAt := fun _ => false, poll := fun _ => cPollA }

/-- A concrete expect step. -/
def cStepA : Step :=
  { type := "expect", text := some "Salta (A).", expect := some "A" }

/-- A poll environment whose stop flag is raised from tick 2 on, with a
neutral gamepad. -/
def cPollStop2 : PollEnv :=
  { stop := fun n => decide (2 ≤ n), snap := fun _ => { pressed := [], axes := (0, 0) } }

/-- A guide holding one step with the unknown kind `teleport`. -/
def badStepGuide : Guide :=
  { name := "G", type := "Single-Stage", description := ""
  , steps := some [{ type := "teleport" }] }

/-- A step with the unknown kind `teleport`. -/
def cStepT : Step := { type := "teleport" }

/-- A guide used in witnesses: one note, one wait and one expect step. -/
def wGuide : Guide :=
  { name := "Half Flip", type := "Single-Stage", description := "d"
  , trigger := some "A"
  , steps := some
      [ { type := "note", text := some "Prepárate." }
      , { type := "wait", seconds := some (8/10) }
      , { type := "expect", text := some "Salta (A).", expect := some "A" } ] }

/-- The expect step of `wGuide`. -/
def wStep : Step :=
  { type := "expect", text := some "Salta (A).", expect := some "A" }

/-- A concrete busy engine state. -/
def busyEngine : EngineState :=
  { active := some wGuide, stopRequested := false }

/-- A parsed macros file whose only frame carries `"dt_ms": 0`. -/
def c8Payload : JVal :=
  .arr [.obj [("frames", .arr [.obj [("dt_ms", .num 0)]])]]

/-- Apply-time entry contents: duration `80`, every axis entry parsing to
`0`, no buttons, and the extras box holding `{"throttle": 2.0}`. -/
def c9Input : ApplyInput :=
  { dtText := some 80, axisText := fun _ => some 0, buttonVal := fun _ => false
  , extras := some (.obj [("throttle", .num 2)]) }

/-- A guide whose `steps` field is `None`. -/
def gNone : Guide :=
  { name := "G", type := "Single-Stage", description := "" }

/-- A singleton guide list with an actual (non-`None`) step list. -/
def wGs : List Guide := [wGuide]

/-!
# Theorems

One theorem per claim of the specification, preceded by the helper lemmas
they rely on.
-/

/-- Claim C1: for every expected label and every snapshot, `match_expect`
returns true iff the label is present verbatim in the pressed set, or
(otherwise) the label is a stick heuristic whose threshold condition holds:
`LS_UP` iff `y < -0.6`, `LS_DOWN` iff `y > 0.6`, `LS_DIAG` iff
`|x| > 0.55` and `|y| > 0.55`; any other label yields false. -/
theorem c1_match_expect_spec (e : String) (buttons : List String) (axes : ℚ × ℚ) :
    matchExpect e buttons axes = true ↔
      (e ∈ buttons ∨
       (e = "LS_UP" ∧ axes.2 < -(6/10 : ℚ)) ∨
       (e = "LS_DOWN" ∧ axes.2 > (6/10 : ℚ)) ∨
       (e = "LS_DIAG" ∧ |axes.1| > (55/100 : ℚ) ∧ |axes.2| > (55/100 : ℚ))) := by
  unfold matchExpect
  by_cases hmem : e ∈ buttons
  · simp [hmem]
  · simp only [hmem, if_false]
    by_cases h1 : e = "LS_UP"
    · simp [h1]
    · by_cases h2 : e = "LS_DOWN"
      · simp [h1, h2]
      · by_cases h3 : e = "LS_DIAG"
        · simp [h1, h2, h3]
        · simp [h1, h2, h3, hmem]

/-! ### Poll-loop lemmas -/

/-- With no stop request, the poll loop succeeds iff some admitted tick
matches. -/
lemma wfeGo_true_iff (e : String) (env : PollEnv) (h : ∀ k, env.stop k = false) :
    ∀ fuel i, (wfeGo e env fuel i).1 = true ↔
      ∃ k, i ≤ k ∧ k < i + fuel ∧ matchSnap e (env.snap k) = true := by
  intro fuel
  induction fuel with
  | zero =>
    intro i
    constructor
    · intro hf; simp [wfeGo] at hf
    · rintro ⟨k, h1, h2, _⟩; exact absurd h2 (by omega)
  | succ n ih =>
    intro i
    by_cases hm : matchSnap e (env.snap i) = true
    · simp only [wfeGo, h i, Bool.false_eq_true, if_false, hm, if_true]
      exact ⟨fun _ => ⟨i, le_refl i, by omega, hm⟩, fun _ => by trivial⟩
    · simp only [wfeGo, h i, Bool.false_eq_true, if_false, hm]
      rw [ih (i + 1)]
      constructor
      · rintro ⟨k, h1, h2, h3⟩
        exact ⟨k, by omega, by omega, h3⟩
      · rintro ⟨k, h1, h2, h3⟩
        refine ⟨k, ?_, by omega, h3⟩
        rcases Nat.eq_or_lt_of_le h1 with he | hl
        · exact absurd (he ▸ h3) hm
        · omega

/-- With no stop request, the poll loop exits no later than any matching
tick (it resolves true as soon as `match_expect` succeeds). -/
lemma wfeGo_exits_at_first_match (e : String) (env : PollEnv)
    (h : ∀ k, env.stop k = false) :
    ∀ fuel i k, i ≤ k → matchSnap e (env.snap k) = true →
      (wfeGo e env fuel i).2 ≤ k := by
  intro fuel
  induction fuel with
  | zero =>
    intro i k hik _
    simpa [wfeGo] using hik
  | succ n ih =>
    intro i k hik hm
    by_cases hmi : matchSnap e (env.snap i) = true
    · simp only [wfeGo, h i, Bool.false_eq_true, if_false, hmi, if_true]
      exact hik
    · simp only [wfeGo, h i, Bool.false_eq_true, if_false, hmi]
      have hne : i ≠ k := fun he => hmi (he ▸ hm)
      exact ih (i + 1) k (by omega) hm

/-- If the stop flag is first observed raised at tick `k` (inside the
window) and no earlier tick matched, the poll loop returns not-matched at
exactly tick `k`. -/
lemma wfeGo_stops_at (e : String) (env : PollEnv) :
    ∀ fuel i k, i ≤ k → k < i + fuel → env.stop k = true →
      (∀ j, i ≤ j → j < k → env.stop j = false ∧ matchSnap e (env.snap j) = false) →
      wfeGo e env fuel i = (false, k) := by
  intro fuel
  induction fuel with
  | zero => intro i k h1 h2 _ _; exact absurd h2 (by omega)
  | succ n ih =>
    intro i k h1 h2 hstop hbefore
    rcases Nat.eq_or_lt_of_le h1 with he | hl
    · subst he
      simp only [wfeGo, hstop, if_true]
    · have hi := hbefore i (le_refl i) hl
      simp only [wfeGo, hi.1, Bool.false_eq_true, if_false, hi.2]
      exact ih (i + 1) k (by omega) (by omega) hstop
        (fun j hj1 hj2 => hbefore j (by omega) hj2)

/-- Claim C2: for an expect step with a non-empty expectation, executed
while no stop is requested, `_run_blocking` emits the instruction status,
then the poll loop runs at the fixed 10 ms interval for up to the 0.35 s
tolerance window (35 polls), resolving true as soon as `match_expect`
succeeds and false if no admitted tick matches; the match/no-match result
is reported via the status callback and in either case execution continues
with the next step — a failed expectation never aborts the run. -/
theorem c2_expect_step (gname : String) (env : RunEnv) (s : Step) (rest : List Step)
    (i : Nat) (hty : s.type = "expect") (hex : truthyStr s.expect = true)
    (hstop : env.stopAt i = false) (hpstop : ∀ k, (env.poll i).stop k = false) :
    runSteps gname env (s :: rest) i =
      ("👉 " ++ pyOrStr s.text "Acción") ::
        ((if waitForExpect s.expect (env.poll i) then "✅ OK" else "⚠ No detectado")
          ++ " · " ++ s.expect.getD "") :: runSteps gname env rest (i + 1) ∧
    (waitForExpect s.expect (env.poll i) = true ↔
      ∃ k, k < maxPolls ∧ matchSnap (s.expect.getD "") ((env.poll i).snap k) = true) ∧
    (∀ k, matchSnap (s.expect.getD "") ((env.poll i).snap k) = true →
      (wfeGo (s.expect.getD "") (env.poll i) maxPolls 0).2 ≤ k) ∧
    (maxPolls : ℚ) * pollInterval = tolerance := by
  have hnotnote : s.type ≠ "note" := by rw [hty]; decide
  have hnotwait : s.type ≠ "wait" := by rw [hty]; decide
  refine ⟨?_, ?_, ?_, ?_⟩
  · rw [runSteps, hstop]
    simp [hnotnote, hnotwait, hty, hex]
  · rw [waitForExpect, hex]
    simp only [if_true]
    rw [wfeGo_true_iff (s.expect.getD "") (env.poll i) hpstop maxPolls 0]
    constructor
    · rintro ⟨k, _, h2, h3⟩; exact ⟨k, by omega, h3⟩
    · rintro ⟨k, h1, h2⟩; exact ⟨k, Nat.zero_le k, by omega, h2⟩
  · intro k hk
    exact wfeGo_exits_at_first_match _ (env.poll i) hpstop maxPolls 0 k (Nat.zero_le k) hk
  · rw [maxPolls, pollInterval, tolerance]; norm_num

/-- Witness for C2 at a concrete input: button `A` held, step expecting
`A`. -/
theorem c2_expect_step_witness :
    cStepA.type = "expect" ∧ truthyStr cStepA.expect = true ∧
    cEnvA.stopAt 0 = false ∧ (∀ k, (cEnvA.poll 0).stop k = false) ∧
    (runSteps "G" cEnvA (cStepA :: []) 0 =
      ("👉 " ++ pyOrStr cStepA.text "Acción") ::
        ((if waitForExpect cStepA.expect (cEnvA.poll 0) then "✅ OK" else "⚠ No detectado")
          ++ " · " ++ cStepA.expect.getD "") :: runSteps "G" cEnvA [] (0 + 1) ∧
      (waitForExpect cStepA.expect (cEnvA.poll 0) = true ↔
        ∃ k, k < maxPolls ∧ matchSnap (cStepA.expect.getD "") ((cEnvA.poll 0).snap k) = true) ∧
      (∀ k, matchSnap (cStepA.expect.getD "") ((cEnvA.poll 0).snap k) = true →
        (wfeGo (cStepA.expect.getD "") (cEnvA.poll 0) maxPolls 0).2 ≤ k) ∧
      (maxPolls : ℚ) * pollInterval = tolerance) :=
  ⟨rfl, rfl, rfl, fun _ => rfl,
    c2_expect_step "G" cEnvA cStepA [] 0 rfl rfl rfl (fun _ => rfl)⟩

/-- Claim C7: if the stop flag is raised at poll tick `k` of an expect poll
loop still inside the tolerance window, and no earlier tick was stopped or
matched, the loop returns not-matched at exactly tick `k` — one poll
interval after the stop signal, not after the full window. -/
theorem c7_stop_resolves_within_poll (e : String) (env : PollEnv) (k : Nat)
    (hk : k < maxPolls) (hstop : env.stop k = true)
    (hbefore : ∀ j, j < k → env.stop j = false ∧ matchSnap e (env.snap j) = false) :
    wfeGo e env maxPolls 0 = (false, k) :=
  wfeGo_stops_at e env maxPolls 0 k (Nat.zero_le k) (by omega) hstop
    (fun j _ hj => hbefore j hj)

/-- Witness for C7 at a concrete input: stop raised from tick 2, neutral
gamepad. -/
theorem c7_stop_resolves_within_poll_witness :
    2 < maxPolls ∧ cPollStop2.stop 2 = true ∧
    (∀ j, j < 2 → cPollStop2.stop j = false ∧ matchSnap "A" (cPollStop2.snap j) = false) ∧
    wfeGo "A" cPollStop2 maxPolls 0 = (false, 2) :=
  ⟨by decide, by decide, by decide,
    c7_stop_resolves_within_poll "A" cPollStop2 2 (by decide) (by decide) (by decide)⟩

/-! ### Engine run-loop lemmas -/

/-- `getLast?` skips the head when the tail is nonempty. -/
lemma getLast?_cons_of_tail_ne_nil (a : α) (l : List α) (h : l ≠ []) :
    (a :: l).getLast? = l.getLast? := by
  cases l with
  | nil => exact absurd rfl h
  | cons b m => exact List.getLast?_cons_cons

/-- The neutral snapshot matches no expectation at all. -/
lemma matchSnap_neutral (e : String) (k : Nat) :
    matchSnap e (neutralPollEnv.snap k) = false := by
  show matchExpect e [] (0, 0) = false
  have h2 : ¬(((0, 0) : ℚ × ℚ).2 < -(6/10 : ℚ)) := by norm_num
  have h3 : ¬(((0, 0) : ℚ × ℚ).2 > (6/10 : ℚ)) := by norm_num
  have h4 : ¬(|((0, 0) : ℚ × ℚ).1| > (55/100 : ℚ) ∧ |((0, 0) : ℚ × ℚ).2| > (55/100 : ℚ)) := by
    norm_num
  simp [matchExpect, h2, h3, h4]
  intro _ _ _
  norm_num

/-- On a permanently neutral snapshot stream the poll loop consumes the
whole window and reports not matched. -/
lemma wfeGo_neutral (e : String) :
    ∀ fuel i, wfeGo e neutralPollEnv fuel i = (false, i + fuel) := by
  intro fuel
  induction fuel with
  | zero => intro i; simp [wfeGo]
  | succ n ih =>
    intro i
    rw [wfeGo]
    have hstop : neutralPollEnv.stop i = false := rfl
    rw [hstop, matchSnap_neutral e i]
    simp only [Bool.false_eq_true, if_false]
    rw [ih (i + 1)]
    have : i + 1 + n = i + (n + 1) := by omega
    rw [this]

/-- A run trace is never empty. -/
lemma runSteps_ne_nil (gname : String) (env : RunEnv) :
    ∀ steps i, runSteps gname env steps i ≠ [] := by
  intro steps
  induction steps with
  | nil => intro i; simp [runSteps]
  | cons s rest ih =>
    intro i
    rw [runSteps]
    split_ifs <;> first | exact ih (i + 1) | simp

/-- With no stop requested, the last status of the step loop is always the
completion message. -/
lemma runSteps_neutral_getLast (gname : String) :
    ∀ steps i, (runSteps gname neutralEnv steps i).getLast? =
      some ("🏁 Fin: " ++ gname) := by
  intro steps
  induction steps with
  | nil => intro i; simp [runSteps]
  | cons s rest ih =>
    intro i
    rw [runSteps]
    have hstop : neutralEnv.stopAt i = false := rfl
    rw [hstop]
    simp only [Bool.false_eq_true, if_false]
    split_ifs with h2 h3 h4 h5 h6
    · rw [getLast?_cons_of_tail_ne_nil _ _ (runSteps_ne_nil gname neutralEnv rest (i + 1))]
      exact ih (i + 1)
    · exact ih (i + 1)
    · rw [List.singleton_append, List.getLast?_cons_cons,
        getLast?_cons_of_tail_ne_nil _ _ (runSteps_ne_nil gname neutralEnv rest (i + 1))]
      exact ih (i + 1)
    · rw [List.singleton_append, List.getLast?_cons_cons,
        getLast?_cons_of_tail_ne_nil _ _ (runSteps_ne_nil gname neutralEnv rest (i + 1))]
      exact ih (i + 1)
    · rw [List.nil_append,
        getLast?_cons_of_tail_ne_nil _ _ (runSteps_ne_nil gname neutralEnv rest (i + 1))]
      exact ih (i + 1)
    · exact ih (i + 1)

/-- On the neutral environment every expect step with a truthy expectation
contributes its no-detect status to the trace. -/
lemma runSteps_neutral_notdet_mem (gname : String) :
    ∀ steps i (s : Step), s ∈ steps → s.type = "expect" → truthyStr s.expect = true →
      ("⚠ No detectado" ++ " · " ++ s.expect.getD "") ∈
        runSteps gname neutralEnv steps i := by
  intro steps
  induction steps with
  | nil => intro i s hs; simp at hs
  | cons a rest ih =>
    intro i s hs hty hex
    rw [runSteps]
    have hstop : neutralEnv.stopAt i = false := rfl
    rw [hstop]
    simp only [Bool.false_eq_true, if_false]
    rcases List.mem_cons.mp hs with he | hm
    · subst he
      have hwfe : waitForExpect s.expect (neutralEnv.poll i) = false := by
        show waitForExpect s.expect neutralPollEnv = false
        rw [waitForExpect, hex]
        simp only [if_true]
        rw [wfeGo_neutral]
      simp [hty, hex, hwfe]
    · have htail := ih (i + 1) s hm hty hex
      split_ifs with h2 h3 h4 h5 h6
      · exact List.mem_cons_of_mem _ htail
      · exact htail
      · exact List.mem_cons_of_mem _ (List.mem_append_right _ htail)
      · exact List.mem_cons_of_mem _ (List.mem_append_right _ htail)
      · exact List.mem_cons_of_mem _ (List.mem_append_right _ htail)
      · exact htail

/-- Claim C5 (amended): a step whose type is none of the known kinds is
skipped and the engine continues with the rest of the sequence — but
silently: no status message is emitted for it (see the counterexample for
the warning asserted by the claim). -/
theorem c5_unknown_step (gname : String) (env : RunEnv) (s : Step) (rest : List Step)
    (i : Nat) (h1 : s.type ≠ "note") (h2 : s.type ≠ "wait") (h3 : s.type ≠ "expect")
    (hstop : env.stopAt i = false) :
    runSteps gname env (s :: rest) i = runSteps gname env rest (i + 1) := by
  rw [runSteps, hstop]
  simp [h1, h2, h3]

/-- Witness for C5 at a concrete input: an unknown `teleport` step. -/
theorem c5_unknown_step_witness :
    cStepT.type ≠ "note" ∧ cStepT.type ≠ "wait" ∧ cStepT.type ≠ "expect" ∧
    neutralEnv.stopAt 0 = false ∧
    runSteps "G" neutralEnv (cStepT :: []) 0 = runSteps "G" neutralEnv [] (0 + 1) :=
  ⟨by decide, by decide, by decide, rfl,
    c5_unknown_step "G" neutralEnv cStepT [] 0 (by decide) (by decide) (by decide) rfl⟩

/-- Counterexample to C5 as stated: running a guide whose only step has the
unknown kind `teleport` produces exactly the start and completion statuses —
no status warning of any kind is emitted for the malformed step. -/
theorem c5_counterexample :
    runBlocking badStepGuide neutralEnv = ["▶ Iniciando: G", "🏁 Fin: G"] := by
  decide

/-- Claim C6: with no physical controller, `start` leaves the reader not
ready and `snapshot()` returns the neutral snapshot (empty pressed set,
axes `(0, 0)`) without error; consequently an expect step with a non-empty
expectation never matches, its no-detect status is reported, and the run
still reaches its completion status. -/
theorem c6_no_device (g : Guide) (s : Step) (hs : s ∈ g.steps.getD [])
    (hty : s.type = "expect") (hex : truthyStr s.expect = true) :
    gamepadSnapshot (gamepadStart 0 gamepadInit) = ([], (0, 0)) ∧
    waitForExpect s.expect neutralPollEnv = false ∧
    ("⚠ No detectado" ++ " · " ++ s.expect.getD "") ∈ runBlocking g neutralEnv ∧
    (runBlocking g neutralEnv).getLast? = some ("🏁 Fin: " ++ g.name) := by
  refine ⟨rfl, ?_, ?_, ?_⟩
  · rw [waitForExpect, hex]
    simp only [if_true]
    rw [wfeGo_neutral]
  · rw [runBlocking]
    exact List.mem_cons_of_mem _
      (runSteps_neutral_notdet_mem g.name (g.steps.getD []) 0 s hs hty hex)
  · rw [runBlocking]
    rw [getLast?_cons_of_tail_ne_nil _ _ (runSteps_ne_nil g.name neutralEnv _ 0)]
    exact runSteps_neutral_getLast g.name (g.steps.getD []) 0

/-- Witness for C6 at a concrete input: `wGuide` and its expect step. -/
theorem c6_no_device_witness :
    wStep ∈ wGuide.steps.getD [] ∧ wStep.type = "expect" ∧
    truthyStr wStep.expect = true ∧
    (gamepadSnapshot (gamepadStart 0 gamepadInit) = ([], (0, 0)) ∧
     waitForExpect wStep.expect neutralPollEnv = false ∧
     ("⚠ No detectado" ++ " · " ++ wStep.expect.getD "") ∈ runBlocking wGuide neutralEnv ∧
     (runBlocking wGuide neutralEnv).getLast? = some ("🏁 Fin: " ++ wGuide.name)) :=
  ⟨by decide, rfl, rfl, c6_no_device wGuide wStep (by decide) rfl rfl⟩

/-- Claim C3 (amended): calling `run` on a running engine is a rejected
no-op — the engine state (including the active run) is unchanged, the new
guide is neither started nor queued, and `run` itself emits no status; the
"already running" notification is emitted by the UI wrapper
`App._run_current`, which reports the conflict and leaves the engine
untouched. -/
theorem c3_single_flight (st : EngineState) (g : Guide)
    (h : engineIsRunning st = true) :
    engineRun st g = (st, []) ∧
    appRunCurrent st g = (st, ["Ya hay una guía corriendo."]) := by
  constructor
  · rw [engineRun, if_pos h]
  · rw [appRunCurrent, if_pos h]

/-- Witness for C3 at a concrete input: a busy engine. -/
theorem c3_single_flight_witness :
    engineIsRunning busyEngine = true ∧
    (engineRun busyEngine wGuide = (busyEngine, []) ∧
     appRunCurrent busyEngine wGuide = (busyEngine, ["Ya hay una guía corriendo."])) :=
  ⟨rfl, c3_single_flight busyEngine wGuide rfl⟩

/-- Counterexample to C3 as stated: `TrainerEngine.run` on a busy engine
returns with the state untouched but emits no status message at all — in
particular no "already running" report is delivered through the status
observer by the rejected call itself. -/
theorem c3_counterexample :
    engineRun busyEngine wGuide = (busyEngine, ([] : List String)) := by
  rfl

/-! ### Frame-streaming lemmas -/

/-- The frame loop emits no `reset` events. -/
lemma streamFrames_no_reset (frames : List MacroFrame) :
    ∀ stopAt i, (streamFrames frames stopAt i).countP isReset = 0 := by
  induction frames with
  | nil => intro stopAt i; rfl
  | cons f rest ih =>
    intro stopAt i
    rw [streamFrames]
    by_cases h : stopAt i = true
    · simp [h]
    · simp [h, List.countP_cons, isReset, ih stopAt (i + 1)]

/-- Claim C4: every run of the frame-streaming engine — completed or
stopped mid-sequence — sends exactly one `reset` event, it is the last
event sent, and its input vector sets every known axis to `0.0` and every
known button to `false`. -/
theorem c4_reset_invariant (nm : String) (frames : List MacroFrame) (stopAt : Nat → Bool) :
    (streamRun nm frames stopAt).countP isReset = 1 ∧
    (streamRun nm frames stopAt).getLast? = some (NetEvent.reset neutralInputs) ∧
    neutralInputs =
      [ ("throttle", JVal.num 0), ("steer", JVal.num 0), ("pitch", JVal.num 0)
      , ("yaw", JVal.num 0), ("roll", JVal.num 0)
      , ("jump", JVal.bool false), ("boost", JVal.bool false)
      , ("handbrake", JVal.bool false), ("airRollL", JVal.bool false)
      , ("airRollR", JVal.bool false) ] := by
  refine ⟨?_, ?_, rfl⟩
  · rw [streamRun, List.countP_cons, List.countP_append,
      streamFrames_no_reset frames stopAt 0]
    rfl
  · rw [streamRun]
    rw [getLast?_cons_of_tail_ne_nil]
    · rw [List.getLast?_append_of_ne_nil _
        (by simp : ([NetEvent.endEv nm, NetEvent.reset neutralInputs] : List NetEvent) ≠ [])]
      rfl
    · simp

/-! ### Association-list lemmas for the editor input mapping -/

/-- Lookup in a keyed map over a key list. -/
lemma lookup_map_self (f : String → JVal) :
    ∀ (l : List String) (k : String), k ∈ l →
      (l.map (fun x => (x, f x))).lookup k = some (f k) := by
  intro l
  induction l with
  | nil => intro k hk; simp at hk
  | cons a rest ih =>
    intro k hk
    rw [List.map_cons]
    by_cases he : k = a
    · subst he
      simp [List.lookup]
    · have hb : (k == a) = false := by simp [he]
      have hm : k ∈ rest := by
        rcases List.mem_cons.mp hk with h | h
        · exact absurd h he
        · exact h
      simp [List.lookup, hb, ih k hm]

/-- A successful lookup in the left part of an append. -/
lemma lookup_append_left (l1 l2 : List (String × JVal)) (k : String) (v : JVal)
    (h : l1.lookup k = some v) : (l1 ++ l2).lookup k = some v := by
  induction l1 with
  | nil => simp [List.lookup] at h
  | cons kv rest ih =>
    rw [List.cons_append]
    by_cases hb : (k == kv.1) = true
    · simp only [List.lookup, hb, if_true] at h ⊢
      exact h
    · rw [Bool.not_eq_true] at hb
      simp only [List.lookup, hb, Bool.false_eq_true, if_false] at h ⊢
      exact ih h

/-- Replacing the value at a different key leaves a lookup unchanged. -/
lemma lookup_map_replace (l : List (String × JVal)) (k k' : String) (v : JVal)
    (h : k ≠ k') :
    (l.map (fun kv => if kv.1 = k' then (k', v) else kv)).lookup k = l.lookup k := by
  induction l with
  | nil => rfl
  | cons kv rest ih =>
    rw [List.map_cons]
    by_cases hk : kv.1 = k'
    · rw [if_pos hk]
      have h1 : (k == k') = false := by simp [h]
      simp [List.lookup, h1, hk, ih]
    · rw [if_neg hk]
      simp only [List.lookup, ih]

/-- Appending a binding for a different key leaves a lookup unchanged. -/
lemma lookup_append_single_ne (l : List (String × JVal)) (k k' : String) (v : JVal)
    (h : k ≠ k') : (l ++ [(k', v)]).lookup k = l.lookup k := by
  have hb : (k == k') = false := by simp [h]
  induction l with
  | nil => simp [List.lookup, hb]
  | cons kv rest ih =>
    rw [List.cons_append]
    simp only [List.lookup, ih]

/-- A dict store at a different key leaves a lookup unchanged. -/
lemma lookup_dictSet_ne (acc : List (String × JVal)) (k k' : String) (v : JVal)
    (h : k ≠ k') : (dictSet acc k' v).lookup k = acc.lookup k := by
  rw [dictSet]
  by_cases hp : (acc.lookup k').isSome = true
  · rw [if_pos hp]
    exact lookup_map_replace acc k k' v h
  · rw [if_neg hp]
    exact lookup_append_single_ne acc k k' v h

/-- Folding dict stores for keys other than `k` leaves the lookup of `k`
unchanged. -/
lemma lookup_foldl_dictSet (k : String) :
    ∀ (kvs : List (String × JVal)) (acc : List (String × JVal)), kvs.lookup k = none →
      (kvs.foldl (fun a kv => dictSet a kv.1 kv.2) acc).lookup k = acc.lookup k := by
  intro kvs
  induction kvs with
  | nil => intro acc _; rfl
  | cons kv rest ih =>
    intro acc h
    have hk : k ≠ kv.1 := by
      intro he
      have hb : (k == kv.1) = true := by simp [he]
      simp [List.lookup, hb] at h
    have hrest : rest.lookup k = none := by
      have hb : (k == kv.1) = false := by simp [hk]
      simpa [List.lookup, hb] using h
    rw [List.foldl_cons, ih (dictSet acc kv.1 kv.2) hrest,
      lookup_dictSet_ne acc k kv.1 kv.2 hk]

/-- The axis entry written by `_apply` for an axis name. -/
lemma lookup_baseInputs_axis (inp : ApplyInput) (k : String) (hk : k ∈ AXES) :
    (baseInputs inp).lookup k =
      some (JVal.num (clampFloat ((inp.axisText k).getD 0) (-1) 1)) := by
  rw [baseInputs, axisEntries]
  exact lookup_append_left _ _ k _
    (lookup_map_self (fun x => JVal.num (clampFloat ((inp.axisText x).getD 0) (-1) 1)) AXES k hk)

/-- The clamp really lands in `[-1, 1]`. -/
lemma clampFloat_bounds (x : ℚ) :
    -1 ≤ clampFloat x (-1) 1 ∧ clampFloat x (-1) 1 ≤ 1 := by
  rw [clampFloat]
  refine ⟨le_max_left _ _, max_le (by norm_num) (min_le_left _ _)⟩

/-- If the extras dict does not bind an axis name, the final input mapping
still holds the clamped axis value. -/
lemma applyInputsMap_lookup_axis (inp : ApplyInput) (k : String) (hk : k ∈ AXES)
    (hex : extrasBinds inp k = false) :
    (applyInputsMap inp).lookup k =
      some (JVal.num (clampFloat ((inp.axisText k).getD 0) (-1) 1)) := by
  rcases hv : inp.extras with _ | v
  · rw [applyInputsMap, hv]
    exact lookup_baseInputs_axis inp k hk
  · cases v with
    | obj kvs =>
      rw [applyInputsMap, hv]
      have hnone : kvs.lookup k = none := by
        cases hcase : kvs.lookup k with
        | none => rfl
        | some w =>
          rw [extrasBinds, hv] at hex
          simp [hcase] at hex
      rw [lookup_foldl_dictSet k kvs (baseInputs inp) hnone]
      exact lookup_baseInputs_axis inp k hk
    | null =>
      rw [applyInputsMap, hv]
      exact lookup_baseInputs_axis inp k hk
    | bool b =>
      rw [applyInputsMap, hv]
      exact lookup_baseInputs_axis inp k hk
    | num q =>
      rw [applyInputsMap, hv]
      exact lookup_baseInputs_axis inp k hk
    | str s =>
      rw [applyInputsMap, hv]
      exact lookup_baseInputs_axis inp k hk
    | arr xs =>
      rw [applyInputsMap, hv]
      exact lookup_baseInputs_axis inp k hk

/-- Claim C8 (amended): frames created by `new_empty_frame` and frames
written by `FrameEditor._apply` always carry an integer `dt_ms ≥ 1`;
`load_macros`, however, does not enforce the bound (see the
counterexample). -/
theorem c8_dt_ms_ge_one (inp : ApplyInput) :
    1 ≤ (frameEditorApply inp).dt_ms ∧ 1 ≤ new_empty_frame.dt_ms := by
  constructor
  · show (1 : Int) ≤ max 1 ((inp.dtText.map pyTruncRat).getD 80)
    exact le_max_left _ _
  · norm_num [new_empty_frame]

/-- Counterexample to C8 as stated: a macros file whose frame record says
`"dt_ms": 0` is read back by `load_macros` as a frame with `dt_ms = 0`,
violating the `dt_ms ≥ 1` invariant. -/
theorem c8_counterexample :
    ∃ m ∈ loadMacros c8Payload, ∃ f ∈ m.frames, f.dt_ms < 1 := by
  decide

/-- Claim C9 (amended): after `_apply`, the value stored for every axis
whose name is not bound by the extras JSON dict is a float clamped to
`[-1, 1]`; an extras binding for an axis name overwrites the clamped value
verbatim (see the counterexample). -/
theorem c9_axes_clamped (inp : ApplyInput) (k : String) (hk : k ∈ AXES)
    (hex : extrasBinds inp k = false) :
    ∃ q : ℚ, numLookup (frameEditorApply inp).inputs k = some q ∧ -1 ≤ q ∧ q ≤ 1 := by
  refine ⟨clampFloat ((inp.axisText k).getD 0) (-1) 1, ?_,
    (clampFloat_bounds _).1, (clampFloat_bounds _).2⟩
  have hl := applyInputsMap_lookup_axis inp k hk hex
  show numLookup (applyInputsMap inp) k = _
  unfold numLookup
  rw [hl]

/-- Witness for C9 at a concrete input: the `steer` axis of `c9Input`. -/
theorem c9_axes_clamped_witness :
    "steer" ∈ AXES ∧ extrasBinds c9Input "steer" = false ∧
    (∃ q : ℚ, numLookup (frameEditorApply c9Input).inputs "steer" = some q ∧
      -1 ≤ q ∧ q ≤ 1) :=
  ⟨by decide, rfl, c9_axes_clamped c9Input "steer" (by decide) rfl⟩

/-- Counterexample to C9 as stated: with the extras box holding
`{"throttle": 2.0}`, `_apply` stores the unclamped value `2.0` for the
`throttle` axis — outside `[-1, 1]`. -/
theorem c9_counterexample :
    numLookup (frameEditorApply c9Input).inputs "throttle" = some 2 ∧ ¬((2 : ℚ) ≤ 1) := by
  refine ⟨rfl, by norm_num⟩

/-! ### Guide persistence lemmas -/

/-- Decoding inverts encoding for a single step. -/
lemma loadStep_asdictStep (s : Step) : loadStep (asdictStep s) = some s := by
  obtain ⟨ty, tx, sec, ex⟩ := s
  cases tx <;> cases sec <;> cases ex <;> rfl

/-- Decoding inverts encoding for a step list. -/
lemma traverseOpt_loadStep (steps : List Step) :
    traverseOpt loadStep (steps.map asdictStep) = some steps := by
  induction steps with
  | nil => rfl
  | cons s rest ih =>
    rw [List.map_cons, traverseOpt, loadStep_asdictStep, ih]
    rfl

/-- Decoding inverts encoding for one guide, except that a `None` step list
comes back as the empty list. -/
lemma loadGuideItem_encGuide (g : Guide) :
    loadGuideItem (encGuide g) = some { g with steps := some (g.steps.getD []) } := by
  obtain ⟨nm, ty, desc, trig, en, steps⟩ := g
  cases trig <;>
    simp [loadGuideItem, encGuide, objGet, List.lookup, traverseOpt_loadStep,
      asStr, asOptStr, optStrJ, pyBool]

/-- Decoding inverts encoding for a guide list, modulo the `None`-steps
normalisation. -/
lemma traverseOpt_encGuide (gs : List Guide) :
    traverseOpt loadGuideItem (gs.map encGuide) =
      some (gs.map fun g => { g with steps := some (g.steps.getD []) }) := by
  induction gs with
  | nil => rfl
  | cons g rest ih =>
    rw [List.map_cons, traverseOpt, loadGuideItem_encGuide, ih]
    rfl

/-- The `None`-steps normalisation is the identity on guides whose steps
are an actual list. -/
lemma map_norm_steps_id :
    ∀ gs : List Guide, (∀ g ∈ gs, g.steps.isSome = true) →
      (gs.map fun g => { g with steps := some (g.steps.getD []) }) = gs := by
  intro gs
  induction gs with
  | nil => intro _; rfl
  | cons g rest ih =>
    intro h
    rw [List.map_cons]
    have hg := h g (List.mem_cons_self g rest)
    obtain ⟨nm, ty, desc, trig, en, steps⟩ := g
    cases hst : steps with
    | none => rw [hst] at hg; simp at hg
    | some l =>
      subst hst
      rw [ih (fun g' hg' => h g' (List.mem_cons_of_mem _ hg'))]
      rfl

/-- Claim C10 (amended): `load_guides` after `save_guides` returns the
original guide list — name, type, description, trigger, enabled flag and
the full ordered step list with each step's type, text, seconds and expect
— provided every guide's step list is an actual list; a guide whose
`steps` is `None` is saved as `[]` and loaded back as `[]` (see the
counterexample). -/
theorem c10_round_trip (gs : List Guide) (h : ∀ g ∈ gs, g.steps.isSome = true) :
    loadGuides (saveGuides gs) = gs := by
  rw [saveGuides, loadGuides, traverseOpt_encGuide, Option.getD_some]
  exact map_norm_steps_id gs h

/-- Witness for C10 at a concrete input: a guide with a note, a wait and
an expect step, a trigger and a rational `seconds` value. -/
theorem c10_round_trip_witness :
    (∀ g ∈ wGs, g.steps.isSome = true) ∧ loadGuides (saveGuides wGs) = wGs :=
  ⟨by decide, c10_round_trip wGs (by decide)⟩

/-- Counterexample to C10 as stated: a guide whose `steps` field is `None`
(serialised as `"steps": []`) does not round-trip — it is loaded back with
`steps = []`, which differs from the original dataclass value. -/
theorem c10_counterexample : loadGuides (saveGuides [gNone]) ≠ [gNone] := by
  decide

end MacroDeck
